import Mathlib

set_option linter.unusedVariables false

/-!
Verification development for the hotel-recommender core: a shallow embedding
of the recommendation engine (`api/services/recommendation.py`), the
geospatial/resolver utilities (`api/services/distance.py`,
`api/services/resolver.py`) and the orchestration workflow
(`api/services/hotel_service.py`), together with theorems settling the
frozen specification claims.

Modelling conventions:
* Python floats are embedded as exact rationals (`ℚ`); the discrepancies and
  properties proved below are robust to floating-point rounding.
* `math.exp` is embedded as an abstract function parameter `expq : ℚ → ℚ`
  (the code only pipes its output into arithmetic; no claim depends on its
  numeric values).
* `haversine_distance` (meters) is embedded as an abstract function
  parameter `hav : ℚ → ℚ → ℚ → ℚ → ℚ` taking (lat1, lon1, lat2, lon2); every
  claim treats it as the distance oracle the code calls, which matches how
  the engine, dedup, and orchestrator consume it.
* Calendar dates are embedded as integer day numbers in a calendar where day
  0 is a Monday, so Python's `date.weekday()` is `d % 7` and adding a
  `timedelta` is integer addition.
* Python strings are Lean `String`s (sequences of unicode code points);
  `str.lower()` is embedded as ASCII lowercasing, which agrees with Python
  on all ASCII keywords used by the code and leaves the Japanese text alike.
-/

namespace HotelRec

/-- Python `int()` applied to a float: truncation toward zero. -/
def pyTrunc (x : ℚ) : ℤ := if 0 ≤ x then ⌊x⌋ else ⌈x⌉

/-- Python `round()` on a number with no extra digits: round half to even. -/
def pyRound (x : ℚ) : ℤ :=
  let f := ⌊x⌋
  let r := x - (f : ℚ)
  if r < 1/2 then f
  else if 1/2 < r then f + 1
  else if 2 ∣ f then f else f + 1

/-- Python `str.lower()`, restricted to ASCII letters (all keyword matching
in the source uses ASCII keywords; non-ASCII characters are untouched). -/
def pyLower (s : String) : String := String.mk (s.data.map Char.toLower)

/-- Python substring containment `needle in haystack` over code points. -/
def isSubstr (needle : List Char) : List Char → Bool
  | [] => needle.isEmpty
  | c :: t => needle.isPrefixOf (c :: t) || isSubstr needle t

/-- Station record (`api/schemas.py`, `StationInfo`). -/
structure StationInfo where
  name : String
  normalized_name : String
  latitude : ℚ
  longitude : ℚ
  place_id : Option String
  address : Option String
  deriving DecidableEq

/-- Hotel record (`api/schemas.py`, `HotelInfo`). -/
structure HotelInfo where
  hotel_id : String
  name : String
  latitude : ℚ
  longitude : ℚ
  price_total : ℤ
  cancellable : Option Bool
  highlights : List String
  booking_url : String
  distance_m : Option ℤ := none
  distance_text : Option String := none
  priority_score : Option ℚ := none
  deriving DecidableEq

/-- Ranking criteria enum (`recommendation.py`, `RankingCriteria`). -/
inductive RankingCriteria where
  | distance_focused
  | budget_focused
  | comfort_focused
  | balanced
  deriving DecidableEq

/-- Weight profile (`recommendation.py`, `RankingWeights`). -/
structure RankingWeights where
  distance : ℚ
  price_value : ℚ
  amenities : ℚ
  availability : ℚ
  deriving DecidableEq

/-- Fixed weight table (`recommendation.py`, `CRITERIA_WEIGHTS`). -/
def criteria_weights : RankingCriteria → RankingWeights
  | .distance_focused => ⟨3/5, 1/5, 1/10, 1/10⟩
  | .budget_focused => ⟨1/5, 3/5, 1/10, 1/10⟩
  | .comfort_focused => ⟨1/10, 1/5, 3/5, 1/10⟩
  | .balanced => ⟨2/5, 3/10, 1/5, 1/10⟩

/-- Recommendation context (`recommendation.py`, `RecommendationContext`). -/
structure RecommendationContext where
  user_budget : ℤ
  stations : List StationInfo
  check_in_date : ℤ
  preferred_criteria : RankingCriteria
  max_walking_distance_m : ℤ := 1000
  min_acceptable_rating : ℚ := 3
  preferred_amenities : List String := []
  deriving DecidableEq

/-- Per-hotel scoring breakdown (`recommendation.py`, `HotelScore`). -/
structure HotelScore where
  hotel_id : String
  total_score : ℚ
  distance_score : ℚ
  price_score : ℚ
  amenities_score : ℚ
  availability_score : ℚ
  nearest_station : String
  walking_time_minutes : ℤ
  price_rank : ℤ
  value_rank : ℤ
  recommendation_reason : String
  deriving DecidableEq

/-- Weekday enum (`api/schemas.py`, `WeekdayEnum`). -/
inductive WeekdayEnum where
  | mon | tue | wed | thu | fri | sat | sun
  deriving DecidableEq

/-- The `weekday_map` table of `resolver.resolve_date_from_weekday`
(0 = Monday .. 6 = Sunday, Python `date.weekday()` convention). -/
def weekday_map : WeekdayEnum → ℤ
  | .mon => 0
  | .tue => 1
  | .wed => 2
  | .thu => 3
  | .fri => 4
  | .sat => 5
  | .sun => 6

/-- Python `date.weekday()` in the day-number calendar (day 0 is a Monday). -/
def pyWeekday (d : ℤ) : ℤ := d % 7

/-- Next-weekday resolution (`resolver.py`, `resolve_date_from_weekday`):
compute `days_ahead = target - current`, move to next week when it is
non-positive, and add to the base date. -/
def resolve_date_from_weekday (weekday : WeekdayEnum) (base_date : ℤ) : ℤ :=
  let target_weekday := weekday_map weekday
  let current_weekday := pyWeekday base_date
  let days_ahead := target_weekday - current_weekday
  let days_ahead := if days_ahead ≤ 0 then days_ahead + 7 else days_ahead
  base_date + days_ahead

/-- Error message of `resolver.resolve_date_from_input`. -/
def eitherDateMsg : String := "Either date_str or weekday must be provided"

/-- Date-or-weekday resolution (`resolver.py`, `resolve_date_from_input`);
an already-parsed ISO date stands in for the validated date string. -/
def resolve_date_from_input (date_str : Option ℤ) (weekday : Option WeekdayEnum)
    (base_date : ℤ) : Except String ℤ :=
  match date_str with
  | some d => .ok d
  | none =>
    match weekday with
    | some w => .ok (resolve_date_from_weekday w base_date)
    | none => .error eitherDateMsg

/-- Error message of `distance.calculate_walking_time_minutes`. -/
def negativeDistMsg : String := "Distance cannot be negative"

/-- Geo utility (`distance.py`, `calculate_walking_time_minutes`):
round to nearest at 80 m/min with a floor of one minute; negative
distances raise. -/
def calculate_walking_time_minutes (distance_m : ℚ) : Except String ℤ :=
  if distance_m < 0 then .error negativeDistMsg
  else .ok (max 1 (pyRound (distance_m / 80)))

/-- Suggestion request (`api/schemas.py`, `SuggestionRequest`), with the
date string already parsed to a day number by the schema validator. -/
structure SuggestionRequest where
  stations : List String
  price_max : ℤ
  date : Option ℤ
  weekday : Option WeekdayEnum
  deriving DecidableEq

/-- Criteria derivation (`hotel_service.py`, `_determine_ranking_criteria`):
`budget_ratio = price_max / 20000.0`, strict comparisons against 0.4/0.8. -/
def determine_ranking_criteria (request : SuggestionRequest) : RankingCriteria :=
  let r : ℚ := (request.price_max : ℚ) / 20000
  if r < 2/5 then .budget_focused
  else if r > 4/5 then .comfort_focused
  else if request.stations.length = 1 then .distance_focused
  else .balanced

/-- Price score (`recommendation.py`, `_calculate_price_score`): value for
money, peaked around 60 percent of the budget. -/
def calculate_price_score (price_total max_budget : ℤ) : ℚ :=
  if price_total ≤ 0 then 0
  else if price_total > max_budget then 0
  else
    let r : ℚ := (price_total : ℚ) / (max_budget : ℚ)
    if r ≤ 3/10 then 1/2 + (r / (3/10)) * (3/10)
    else if r ≤ 7/10 then 4/5 + (1 - |r - 3/5| / (1/10)) * (1/5)
    else 4/5 - ((r - 7/10) / (3/10)) * (7/10)

/-- Fixed keyword list of `_calculate_amenities_score` (`high_value_amenities`). -/
def high_value_amenities : List String :=
  ["wifi", "parking", "breakfast", "onsen", "spa", "gym", "restaurant",
   "concierge", "business", "meeting", "airport", "shuttle"]

/-- Number of highlights containing at least one preferred keyword
(the inner preference loop of `_calculate_amenities_score` breaks after the
first match, so each highlight is counted at most once). -/
def prefMatches (highlights preferred : List String) : Nat :=
  highlights.countP (fun a => preferred.any (fun p => isSubstr (pyLower p).toList (pyLower a).toList))

/-- Accumulated high-value bonus of `_calculate_amenities_score`: the nested
loop has no break, so every (highlight, keyword) pair adds 0.05. -/
def high_value_raw (highlights : List String) : ℚ :=
  highlights.foldl
    (fun acc a =>
      high_value_amenities.foldl
        (fun b kw => if isSubstr kw.toList (pyLower a).toList then b + 1/20 else b) acc)
    0

/-- Capped high-value bonus (`min(high_value_score, 0.4)` in the source). -/
def high_value_score (highlights : List String) : ℚ := min (high_value_raw highlights) (2/5)

/-- Body of `_calculate_amenities_score` for a non-empty highlights list:
count score + preference bonus + capped high-value bonus. -/
def amenities_formula (highlights preferred_amenities : List String) : ℚ :=
  let amenity_count_score := min ((highlights.length : ℚ) / 10) (3/5)
  let preference_score :=
    if preferred_amenities.isEmpty then 0
    else min ((prefMatches highlights preferred_amenities : ℚ) / (preferred_amenities.length : ℚ)) (2/5)
  amenity_count_score + preference_score + high_value_score highlights

/-- Amenities score (`recommendation.py`, `_calculate_amenities_score`):
hotels with no listed highlights get the fixed base score 0.2. -/
def calculate_amenities_score (highlights preferred_amenities : List String) : ℚ :=
  if highlights.isEmpty then 1/5
  else amenities_formula highlights preferred_amenities

/-- Availability score (`recommendation.py`, `_calculate_availability_score`). -/
def calculate_availability_score (hotel : HotelInfo) : ℚ :=
  let base : ℚ := 7/10
  let base := match hotel.cancellable with
    | some true => base + 3/10
    | some false => base - 1/5
    | none => base
  max 0 (min 1 base)

/-- Distance (meters) from a hotel to one station, as the engine calls the
haversine collaborator. -/
def stationDistance (hav : ℚ → ℚ → ℚ → ℚ → ℚ) (hotel : HotelInfo) (station : StationInfo) : ℚ :=
  hav hotel.latitude hotel.longitude station.latitude station.longitude

/-- The `min_distance_m` loop shared by the engine and the orchestrator:
minimum hotel-to-station distance over a non-empty station list (the
source seeds the loop with infinity; seeding with the first element is
equivalent for a non-empty list of finite values). -/
def minStationDistance (hav : ℚ → ℚ → ℚ → ℚ → ℚ) (hotel : HotelInfo)
    (s : StationInfo) (rest : List StationInfo) : ℚ :=
  rest.foldl (fun m st => min m (stationDistance hav hotel st)) (stationDistance hav hotel s)

/-- Distance score (`recommendation.py`, `_calculate_distance_score`):
neutral 0.5 with no stations, else a piecewise exponential decay. -/
def calculate_distance_score (expq : ℚ → ℚ) (hav : ℚ → ℚ → ℚ → ℚ → ℚ)
    (hotel : HotelInfo) (stations : List StationInfo) : ℚ :=
  match stations with
  | [] => 1/2
  | s :: rest =>
    let d := minStationDistance hav hotel s rest
    if d ≤ 0 then 1
    else if d ≥ 2000 then 1/10
    else expq (-d / 600) * (9/10) + 1/10

/-- Hard filter (`recommendation.py`, `_meets_minimum_criteria`). -/
def meets_minimum_criteria (hav : ℚ → ℚ → ℚ → ℚ → ℚ) (hotel : HotelInfo)
    (ctx : RecommendationContext) : Bool :=
  if hotel.price_total > ctx.user_budget then false
  else
    match ctx.stations with
    | [] => true
    | s :: rest =>
      decide (minStationDistance hav hotel s rest ≤ (ctx.max_walking_distance_m : ℚ))

/-- Name returned by `_find_nearest_station` when no stations exist. -/
def unknownName : String := "Unknown"

/-- The strict-minimum loop of `_find_nearest_station`, tracking the first
station realizing the minimum distance. -/
def nearestFold (hav : ℚ → ℚ → ℚ → ℚ → ℚ) (hotel : HotelInfo)
    (s : StationInfo) (rest : List StationInfo) : StationInfo × ℚ :=
  rest.foldl
    (fun p st => if stationDistance hav hotel st < p.2 then (st, stationDistance hav hotel st) else p)
    (s, stationDistance hav hotel s)

/-- Nearest station and walking time (`recommendation.py`,
`_find_nearest_station`): `int(min_distance_m / 80)`, a plain truncation
with no one-minute floor. -/
def find_nearest_station (hav : ℚ → ℚ → ℚ → ℚ → ℚ) (hotel : HotelInfo)
    (stations : List StationInfo) : String × ℤ :=
  match stations with
  | [] => (unknownName, 0)
  | s :: rest =>
    let p := nearestFold hav hotel s rest
    (p.1.name, pyTrunc (p.2 / 80))

/-- Human-readable reason phrases of `_generate_recommendation_reason`. -/
def reasonVeryClose : String := "駅から非常に近い立地"

/-- Second distance phrase of `_generate_recommendation_reason`. -/
def reasonWalkable : String := "駅から徒歩圏内の好立地"

/-- Strong price phrase of `_generate_recommendation_reason`. -/
def reasonGreatValue : String := "優れたコストパフォーマンス"

/-- Moderate price phrase of `_generate_recommendation_reason`. -/
def reasonAffordable : String := "お手頃な価格設定"

/-- Strong amenities phrase of `_generate_recommendation_reason`. -/
def reasonRichAmenities : String := "充実した設備・サービス"

/-- Moderate amenities phrase of `_generate_recommendation_reason`. -/
def reasonGoodAmenities : String := "良質なアメニティ"

/-- Distance-criteria phrase of `_generate_recommendation_reason`. -/
def reasonAccess : String := "アクセス重視の条件に最適"

/-- Budget-criteria phrase of `_generate_recommendation_reason`. -/
def reasonBudgetFit : String := "予算効率を重視した選択"

/-- Comfort-criteria phrase of `_generate_recommendation_reason`. -/
def reasonComfortFit : String := "快適性重視の条件に適合"

/-- Fallback phrase of `_generate_recommendation_reason`. -/
def reasonBalanced : String := "バランスの取れた選択肢"

/-- Separator used by `_generate_recommendation_reason`. -/
def reasonSep : String := "、"

/-- Reason text (`recommendation.py`, `_generate_recommendation_reason`). -/
def generate_recommendation_reason (dsc psc asc : ℚ) (criteria : RankingCriteria) : String :=
  let reasons :=
    (if dsc > 4/5 then [reasonVeryClose] else if dsc > 3/5 then [reasonWalkable] else []) ++
    (if psc > 4/5 then [reasonGreatValue] else if psc > 3/5 then [reasonAffordable] else []) ++
    (if asc > 4/5 then [reasonRichAmenities] else if asc > 3/5 then [reasonGoodAmenities] else []) ++
    (match criteria with
     | .distance_focused => if dsc > 1/2 then [reasonAccess] else []
     | .budget_focused => if psc > 1/2 then [reasonBudgetFit] else []
     | .comfort_focused => if asc > 1/2 then [reasonComfortFit] else []
     | .balanced => [])
  let reasons := if reasons.isEmpty then [reasonBalanced] else reasons
  String.intercalate reasonSep (reasons.take 3)

/-- Per-hotel scoring (`recommendation.py`, `_calculate_hotel_score`). -/
def calculate_hotel_score (expq : ℚ → ℚ) (hav : ℚ → ℚ → ℚ → ℚ → ℚ)
    (hotel : HotelInfo) (ctx : RecommendationContext) (weights : RankingWeights) : HotelScore :=
  let dsc := calculate_distance_score expq hav hotel ctx.stations
  let psc := calculate_price_score hotel.price_total ctx.user_budget
  let asc := calculate_amenities_score hotel.highlights ctx.preferred_amenities
  let avs := calculate_availability_score hotel
  let total := weights.distance * dsc + weights.price_value * psc +
    weights.amenities * asc + weights.availability * avs
  let ns := find_nearest_station hav hotel ctx.stations
  { hotel_id := hotel.hotel_id
    total_score := total
    distance_score := dsc
    price_score := psc
    amenities_score := asc
    availability_score := avs
    nearest_station := ns.1
    walking_time_minutes := ns.2
    price_rank := 0
    value_rank := 0
    recommendation_reason := generate_recommendation_reason dsc psc asc ctx.preferred_criteria }

/-- Stable insertion: a new element goes before the first kept element it
compares less-or-equally against, so equal keys keep input order, exactly
the guarantee of Python's stable `sort`/`sorted`. -/
def insertSorted {α : Type _} (le : α → α → Bool) (x : α) : List α → List α
  | [] => [x]
  | y :: ys => if le x y then x :: y :: ys else y :: insertSorted le x ys

/-- Stable sort modelling Python's `list.sort`/`sorted`. -/
def stableSort {α : Type _} (le : α → α → Bool) : List α → List α
  | [] => []
  | x :: xs => insertSorted le x (stableSort le xs)

/-- Rank of the element that sat at original position `j`, read off a sorted
enumeration (models the in-place rank mutation over shared score objects). -/
def rankIndex (j : Nat) (l : List (Nat × (HotelInfo × HotelScore))) : ℤ :=
  (l.findIdx (fun p => p.1 == j) : ℤ) + 1

/-- Relative ranks (`recommendation.py`, `_update_relative_rankings`):
price rank by ascending raw price, value rank by descending price score,
both stable over the surviving scored set. -/
def update_relative_rankings (scored : List (HotelInfo × HotelScore)) :
    List (HotelInfo × HotelScore) :=
  let e := scored.enum
  let price_sorted := stableSort (fun a b => decide (a.2.1.price_total ≤ b.2.1.price_total)) e
  let value_sorted := stableSort (fun a b => decide (b.2.2.price_score ≤ a.2.2.price_score)) e
  e.map (fun p =>
    (p.2.1, { p.2.2 with
                price_rank := rankIndex p.1 price_sorted
                value_rank := rankIndex p.1 value_sorted }))

/-- Ranking pipeline (`recommendation.py`, `rank_hotels`): filter by the hard
criteria, score, sort stably by descending total score, assign ranks. -/
def rank_hotels (expq : ℚ → ℚ) (hav : ℚ → ℚ → ℚ → ℚ → ℚ)
    (hotels : List HotelInfo) (ctx : RecommendationContext) :
    List (HotelInfo × HotelScore) :=
  match hotels with
  | [] => []
  | _ :: _ =>
    let weights := criteria_weights ctx.preferred_criteria
    let scored := (hotels.filter (fun h => meets_minimum_criteria hav h ctx)).map
      (fun h => (h, calculate_hotel_score expq hav h ctx weights))
    let sorted := stableSort (fun a b => decide (b.2.total_score ≤ a.2.total_score)) scored
    update_relative_rankings sorted

/-- Python truthiness check `station.place_id and station.place_id in seen`
(`None` and the empty string are falsy). -/
def placeIdSeen (pid : Option String) (seen : List String) : Bool :=
  match pid with
  | some p => !p.isEmpty && seen.contains p
  | none => false

/-- Registration `if station.place_id: seen_place_ids.add(...)`. -/
def addSeen (pid : Option String) (seen : List String) : List String :=
  match pid with
  | some p => if !p.isEmpty then p :: seen else seen
  | none => seen

/-- Loop body of `hotel_service._deduplicate_stations`, carrying the set of
seen identifiers and the kept stations in input order. The proximity test is
the source's `haversine_distance(...) * 1000 < 50` on meter distances. -/
def dedupGo (hav : ℚ → ℚ → ℚ → ℚ → ℚ) :
    List StationInfo → List String → List StationInfo → List StationInfo
  | [], _, unique_stations => unique_stations
  | station :: rest, seen, unique_stations =>
    if placeIdSeen station.place_id seen then
      dedupGo hav rest seen unique_stations
    else if unique_stations.any (fun e =>
        decide (hav station.latitude station.longitude e.latitude e.longitude * 1000 < 50)) then
      dedupGo hav rest seen unique_stations
    else
      dedupGo hav rest (addSeen station.place_id seen) (unique_stations ++ [station])

/-- Station deduplication (`hotel_service.py`, `_deduplicate_stations`). -/
def deduplicate_stations (hav : ℚ → ℚ → ℚ → ℚ → ℚ) (stations : List StationInfo) :
    List StationInfo :=
  dedupGo hav stations [] []

/-- Errors surfaced by `get_hotel_recommendations`: an uncaught resolver
`ValueError`, or the aggregated `StationNotFoundError`. -/
inductive OrchError where
  | valueError (msg : String)
  | stationNotFound (msg : String)
  deriving DecidableEq

/-- Result entry (`api/schemas.py`, `HotelResult`). -/
structure HotelResult where
  hotel_id : String
  name : String
  distance_text : String
  distance_m : ℤ
  price_total : ℤ
  cancellable : Option Bool
  highlights : List String
  booking_url : String
  reason : String
  deriving DecidableEq

/-- Response schema (`api/schemas.py`, `SuggestionResponse`), with the
resolved date kept as the day number it prints. -/
structure SuggestionResponse where
  resolved_date : ℤ
  results : List HotelResult
  deriving DecidableEq

/-- Concatenation of the successful per-station lookups, in request order
(the fan-out is awaited in request order and merged by `extend`). The
`lookup` collaborator stands for `station_provider.get_station_info` applied
to the raw name and its normalized key; an `error` is a raised
`StationNotFoundError` carrying its message. -/
def all_stations_of (lookup : String → Except String (List StationInfo))
    (names : List String) : List StationInfo :=
  (names.map (fun n => match lookup n with | .ok l => l | .error _ => [])).flatten

/-- ASCII single quote, used by the per-station error format string. -/
def quoteChar : String := (Char.ofNat 39).toString

/-- Prefix of the per-station failure entry. -/
def stationErrPre : String := "駅 "

/-- Separator of the per-station failure entry. -/
def stationErrMid : String := ": "

/-- Per-name failure reasons collected during the fan-out, in request order
(the f-string `駅 '{name}': {e}` of `get_hotel_recommendations`). -/
def station_errors_of (lookup : String → Except String (List StationInfo))
    (names : List String) : List String :=
  names.filterMap (fun n =>
    match lookup n with
    | .error e => some (stationErrPre ++ quoteChar ++ n ++ quoteChar ++ stationErrMid ++ e)
    | .ok _ => none)

/-- Base text of the aggregated station-not-found message. -/
def noStationsBase : String := "指定された駅が見つかりませんでした。"

/-- Prefix of the appended error list. -/
def errorListPre : String := " エラー: "

/-- Separator of the appended error list. -/
def errorListSep : String := "; "

/-- Aggregated `StationNotFoundError` message built at
`hotel_service.py` lines 111-115. -/
def no_stations_message (errors : List String) : String :=
  if errors.isEmpty then noStationsBase
  else noStationsBase ++ errorListPre ++ String.intercalate errorListSep errors

/-- Literal fragment of the distance text f-string. -/
def walkPre : String := "から徒歩"

/-- Closing fragment of the distance text f-string. -/
def walkSuf : String := "分"

/-- Distance text built by the orchestrator
(f-string `{nearest}から徒歩{minutes}分` at `hotel_service.py` line 171). -/
def format_distance_text (nearest_station_name : String) (walking_time_minutes : ℤ) : String :=
  nearest_station_name ++ walkPre ++ toString walking_time_minutes ++ walkSuf

/-- Result formatting loop body of `get_hotel_recommendations` (step 5):
recompute the nearest-station distance over the deduplicated stations and
assemble a `HotelResult`. -/
def format_hotel_result (hav : ℚ → ℚ → ℚ → ℚ → ℚ) (unique_stations : List StationInfo)
    (p : HotelInfo × HotelScore) : HotelResult :=
  let dm : ℤ :=
    match unique_stations with
    | [] => 0
    | s :: rest => pyTrunc (minStationDistance hav p.1 s rest)
  { hotel_id := p.1.hotel_id
    name := p.1.name
    distance_text := format_distance_text p.2.nearest_station p.2.walking_time_minutes
    distance_m := dm
    price_total := p.1.price_total
    cancellable := p.1.cancellable
    highlights := p.1.highlights
    booking_url := p.1.booking_url
    reason := p.2.recommendation_reason }

/-- Orchestrator (`hotel_service.py`, `get_hotel_recommendations`). The
`search` collaborator stands for `hotel_provider.find_hotels_near_stations`
with arguments (stations, max price, check-in date, radius, result cap); an
`error` is a raised `HotelNotFoundError`. -/
def get_hotel_recommendations
    (lookup : String → Except String (List StationInfo))
    (search : List StationInfo → ℤ → ℤ → ℤ → ℤ → Except String (List HotelInfo))
    (expq : ℚ → ℚ) (hav : ℚ → ℚ → ℚ → ℚ → ℚ)
    (request : SuggestionRequest) (base_date : ℤ) :
    Except OrchError SuggestionResponse :=
  match resolve_date_from_input request.date request.weekday base_date with
  | .error e => .error (.valueError e)
  | .ok resolved_date =>
    let all_stations := all_stations_of lookup request.stations
    if all_stations.isEmpty then
      .error (.stationNotFound (no_stations_message (station_errors_of lookup request.stations)))
    else
      let unique_stations := deduplicate_stations hav all_stations
      match search unique_stations request.price_max resolved_date 800 50 with
      | .error _ => .ok { resolved_date := resolved_date, results := [] }
      | .ok hotels =>
        let criteria := determine_ranking_criteria request
        let ctx : RecommendationContext :=
          { user_budget := request.price_max
            stations := unique_stations
            check_in_date := resolved_date
            preferred_criteria := criteria
            max_walking_distance_m := 1200
            min_acceptable_rating := 3
            preferred_amenities := [] }
        let ranked := rank_hotels expq hav hotels ctx
        .ok { resolved_date := resolved_date
              results := (ranked.take 3).map (format_hotel_result hav unique_stations) }

/-- Distance score as claim C2 words it: the minimum distance to any context
station is taken to be 0 when no stations are supplied, and the piecewise
formula is applied to that minimum. -/
def claim_distance_score (expq : ℚ → ℚ) (hav : ℚ → ℚ → ℚ → ℚ → ℚ)
    (hotel : HotelInfo) (stations : List StationInfo) : ℚ :=
  let d : ℚ :=
    match stations with
    | [] => 0
    | s :: rest => minStationDistance hav hotel s rest
  if d ≤ 0 then 1
  else if d ≥ 2000 then 1/10
  else expq (-d / 600) * (9/10) + 1/10

/-- Amended distance score: identical to the source formula, with the
no-stations case yielding the neutral 0.5 rather than 1.0; the minimum is
expressed as a right fold over the mapped distance list. -/
def amended_distance_score (expq : ℚ → ℚ) (hav : ℚ → ℚ → ℚ → ℚ → ℚ)
    (hotel : HotelInfo) (stations : List StationInfo) : ℚ :=
  match stations with
  | [] => 1/2
  | s :: rest =>
    let d := (rest.map (stationDistance hav hotel)).foldr min (stationDistance hav hotel s)
    if d ≤ 0 then 1
    else if d ≥ 2000 then 1/10
    else expq (-d / 600) * (9/10) + 1/10

/-- Identifier check of the claim C3 reading of deduplication. -/
def claimIdSeen (pid : Option String) (ids : List String) : Bool :=
  match pid with
  | some p => ids.contains p
  | none => false

/-- Identifier registration of the claim C3 reading of deduplication. -/
def claimAddId (pid : Option String) (ids : List String) : List String :=
  match pid with
  | some p => p :: ids
  | none => ids

/-- Station deduplication as claim C3 words it: drop a later station when its
external identifier equals that of an already-kept station or when its
haversine distance to any already-kept station is below 150 m. -/
def claimDedupGo (hav : ℚ → ℚ → ℚ → ℚ → ℚ) :
    List StationInfo → List String → List StationInfo → List StationInfo
  | [], _, kept => kept
  | station :: rest, keptIds, kept =>
    if claimIdSeen station.place_id keptIds then
      claimDedupGo hav rest keptIds kept
    else if kept.any (fun e =>
        decide (hav station.latitude station.longitude e.latitude e.longitude < 150)) then
      claimDedupGo hav rest keptIds kept
    else
      claimDedupGo hav rest (claimAddId station.place_id keptIds) (kept ++ [station])

/-- Entry point of the claim C3 reading of station deduplication. -/
def claim_deduplicate_stations (hav : ℚ → ℚ → ℚ → ℚ → ℚ)
    (stations : List StationInfo) : List StationInfo :=
  claimDedupGo hav stations [] []

/-- Amended station deduplication: the proximity rule drops a later station
only when its haversine distance to an already-kept one is below 0.05 m
(the source compares the meter distance times 1000 against 50). -/
def amendedDedupGo (hav : ℚ → ℚ → ℚ → ℚ → ℚ) :
    List StationInfo → List String → List StationInfo → List StationInfo
  | [], _, unique_stations => unique_stations
  | station :: rest, seen, unique_stations =>
    if placeIdSeen station.place_id seen then
      amendedDedupGo hav rest seen unique_stations
    else if unique_stations.any (fun e =>
        decide (hav station.latitude station.longitude e.latitude e.longitude < 1/20)) then
      amendedDedupGo hav rest seen unique_stations
    else
      amendedDedupGo hav rest (addSeen station.place_id seen) (unique_stations ++ [station])

/-- Entry point of the amended station deduplication. -/
def amended_deduplicate_stations (hav : ℚ → ℚ → ℚ → ℚ → ℚ)
    (stations : List StationInfo) : List StationInfo :=
  amendedDedupGo hav stations [] []

/-- Price score as claim C4 words it, in terms of r = price/budget. -/
def claim_price_score (price_total max_budget : ℤ) : ℚ :=
  let r : ℚ := (price_total : ℚ) / (max_budget : ℚ)
  if price_total ≤ 0 then 0
  else if price_total > max_budget then 0
  else if r ≤ 3/10 then 1/2 + (r / (3/10)) * (3/10)
  else if r ≤ 7/10 then 4/5 + (1 - |r - 3/5| / (1/10)) * (1/5)
  else 4/5 - ((r - 7/10) / (3/10)) * (7/10)

/-- Ranking criteria as claim C6 words it: budget-focused at price ceilings
of at most 8000, comfort-focused at ceilings of at least 16000. -/
def claim_ranking_criteria (request : SuggestionRequest) : RankingCriteria :=
  if request.price_max ≤ 8000 then .budget_focused
  else if request.price_max ≥ 16000 then .comfort_focused
  else if request.stations.length = 1 then .distance_focused
  else .balanced

/-- Amended ranking criteria: the thresholds are strict (budget-focused
below 8000, comfort-focused above 16000). -/
def amended_ranking_criteria (request : SuggestionRequest) : RankingCriteria :=
  if request.price_max < 8000 then .budget_focused
  else if request.price_max > 16000 then .comfort_focused
  else if request.stations.length = 1 then .distance_focused
  else .balanced

/-- High-value bonus as claim C7 words it: 0.05 for each highlight containing
at least one fixed keyword, each highlight counted at most once, capped. -/
def claim_high_value_score (highlights : List String) : ℚ :=
  min ((highlights.countP (fun a =>
      high_value_amenities.any (fun kw => isSubstr kw.toList (pyLower a).toList)) : ℚ) * (1/20))
    (2/5)

/-- Closed-form count of matching (highlight, keyword) pairs, keywords from
the fixed high-value list. -/
def pair_count (highlights : List String) : Nat :=
  (highlights.map (fun a =>
      high_value_amenities.countP (fun kw => isSubstr kw.toList (pyLower a).toList))).sum

/-- Length of the results list of a successful response, 0 on error. -/
def ok_results_length : Except OrchError SuggestionResponse → Nat
  | .ok r => r.results.length
  | .error _ => 0

/-- Concrete hotel used by concrete evaluations. -/
def hotelA : HotelInfo :=
  ⟨"h1", "ホテルA", 0, 0, 5000, none, [], "https://example.com/a", none, none, none⟩

/-- Concrete station at the origin, no external identifier. -/
def stA : StationInfo := ⟨"A駅", "a", 0, 0, none, none⟩

/-- Concrete station 0.001 degrees of latitude north of `stA`, no external
identifier; under `havLat` it sits 100 m away from `stA`. -/
def stB : StationInfo := ⟨"B駅", "b", 1/1000, 0, none, none⟩

/-- Concrete distance oracle: 100000 m per degree of latitude difference
(close to the true haversine scale of about 111 km per degree). -/
def havLat : ℚ → ℚ → ℚ → ℚ → ℚ := fun la1 _ la2 _ => |la1 - la2| * 100000

/-- Concrete distance oracle putting everything 79 m away. -/
def hav79 : ℚ → ℚ → ℚ → ℚ → ℚ := fun _ _ _ _ => 79

/-- Concrete stand-in for `math.exp` used when a scenario needs one. -/
def expHalf : ℚ → ℚ := fun _ => 1/2

/-- Concrete failure message of a failing station lookup. -/
def notFoundMsg : String := "not found"

/-- Concrete failure message of a failing hotel search. -/
def noHotelsMsg : String := "no hotels"

/-- Station lookup collaborator that fails on every name. -/
def lookupFail : String → Except String (List StationInfo) := fun _ => .error notFoundMsg

/-- Station lookup collaborator that returns `stA` for every name. -/
def lookupStA : String → Except String (List StationInfo) := fun _ => .ok [stA]

/-- Hotel search collaborator that succeeds with no candidates. -/
def searchEmptyOk : List StationInfo → ℤ → ℤ → ℤ → ℤ → Except String (List HotelInfo) :=
  fun _ _ _ _ _ => .ok []

/-- Hotel search collaborator that raises `HotelNotFoundError`. -/
def searchNoHotels : List StationInfo → ℤ → ℤ → ℤ → ℤ → Except String (List HotelInfo) :=
  fun _ _ _ _ _ => .error noHotelsMsg

/-- Concrete request: one station name, ceiling 10000, explicit date 100. -/
def reqTokyo : SuggestionRequest := ⟨["東京"], 10000, some 100, none⟩

/-- Concrete request at the 8000 boundary with two station names. -/
def reqBoundary : SuggestionRequest := ⟨["新宿", "渋谷"], 8000, some 0, none⟩

/-! Helper lemmas shared by the claim theorems. -/

theorem foldr_min_min (x y : ℚ) (l : List ℚ) :
    l.foldr min (min x y) = min y (l.foldr min x) := by
  induction l with
  | nil => exact min_comm x y
  | cons a t ih => simp only [List.foldr_cons, ih, min_left_comm]

theorem foldl_min_map {α : Type _} (f : α → ℚ) :
    ∀ (l : List α) (x : ℚ),
      l.foldl (fun m a => min m (f a)) x = (l.map f).foldr min x := by
  intro l
  induction l with
  | nil => intro x; rfl
  | cons a t ih =>
    intro x
    simp only [List.foldl_cons, List.map_cons, List.foldr_cons, ih, foldr_min_min]

theorem nearestFold_snd (hav : ℚ → ℚ → ℚ → ℚ → ℚ) (hotel : HotelInfo) :
    ∀ (l : List StationInfo) (a : StationInfo) (x : ℚ),
      (l.foldl (fun p st =>
          if stationDistance hav hotel st < p.2 then (st, stationDistance hav hotel st) else p)
        (a, x)).2
      = l.foldl (fun m st => min m (stationDistance hav hotel st)) x := by
  intro l
  induction l with
  | nil => intro a x; rfl
  | cons b t ih =>
    intro a x
    simp only [List.foldl_cons]
    by_cases h : stationDistance hav hotel b < x
    · rw [if_pos h, ih, min_eq_right h.le]
    · rw [if_neg h, ih, min_eq_left (not_lt.mp h)]

theorem pyTrunc_eq_zero (x : ℚ) (h0 : 0 ≤ x) (h1 : x < 1) : pyTrunc x = 0 := by
  unfold pyTrunc
  rw [if_pos h0]
  exact Int.floor_eq_zero_iff.mpr (Set.mem_Ico.mpr ⟨h0, h1⟩)

theorem pyRound_le_one (x : ℚ) (h0 : 0 ≤ x) (h1 : x < 1) : pyRound x ≤ 1 := by
  have hf : ⌊x⌋ = 0 := Int.floor_eq_zero_iff.mpr (Set.mem_Ico.mpr ⟨h0, h1⟩)
  simp only [pyRound, hf]
  split_ifs <;> omega

/-! Claim theorems. -/

/-- C8: next-weekday resolution returns a date strictly after the base date,
at most 7 days ahead, landing on the requested weekday; when the requested
weekday equals the base date's weekday the result is exactly base + 7. -/
theorem C8_next_weekday (w : WeekdayEnum) (base_date : ℤ) :
    base_date < resolve_date_from_weekday w base_date ∧
    resolve_date_from_weekday w base_date ≤ base_date + 7 ∧
    pyWeekday (resolve_date_from_weekday w base_date) = weekday_map w ∧
    (weekday_map w = pyWeekday base_date →
      resolve_date_from_weekday w base_date = base_date + 7) := by
  have h0 : 0 ≤ weekday_map w := by cases w <;> decide
  have h6 : weekday_map w ≤ 6 := by cases w <;> decide
  have hr : resolve_date_from_weekday w base_date =
      base_date + (if weekday_map w - base_date % 7 ≤ 0
        then weekday_map w - base_date % 7 + 7
        else weekday_map w - base_date % 7) := rfl
  rw [hr]
  unfold pyWeekday
  split_ifs with h
  · exact ⟨by omega, by omega, by omega, by omega⟩
  · exact ⟨by omega, by omega, by omega, by omega⟩

/-- Witness for C8: requesting Monday from a Monday base date advances a
full week. -/
theorem C8_next_weekday_witness :
    weekday_map WeekdayEnum.mon = pyWeekday 0 ∧
    resolve_date_from_weekday WeekdayEnum.mon 0 = 0 + 7 :=
  ⟨by decide, (C8_next_weekday WeekdayEnum.mon 0).2.2.2 (by decide)⟩

/-- C6 counterexample: at a price ceiling of exactly 8000 with two station
names the code derives balanced, while the claim demands budget-focused. -/
theorem C6_counterexample :
    determine_ranking_criteria reqBoundary = RankingCriteria.balanced ∧
    claim_ranking_criteria reqBoundary = RankingCriteria.budget_focused ∧
    determine_ranking_criteria reqBoundary ≠ claim_ranking_criteria reqBoundary := by
  have h1 : determine_ranking_criteria reqBoundary = RankingCriteria.balanced := by
    simp only [determine_ranking_criteria, reqBoundary]
    norm_num
  have h2 : claim_ranking_criteria reqBoundary = RankingCriteria.budget_focused := by
    simp only [claim_ranking_criteria, reqBoundary]
    norm_num
  refine ⟨h1, h2, ?_⟩
  rw [h1, h2]
  intro hcon
  exact RankingCriteria.noConfusion hcon

/-- C6 amended: budget-focused strictly below 8000, comfort-focused strictly
above 16000, then distance-focused for exactly one requested station, else
balanced. -/
theorem C6_criteria_amended (request : SuggestionRequest) :
    determine_ranking_criteria request = amended_ranking_criteria request := by
  have h20 : (0:ℚ) < 20000 := by norm_num
  have h1 : ((request.price_max : ℚ) / 20000 < 2/5) ↔ request.price_max < 8000 := by
    rw [div_lt_iff₀ h20]
    constructor
    · intro h
      have h8 : (request.price_max : ℚ) < ((8000 : ℤ) : ℚ) := by push_cast; linarith
      exact_mod_cast h8
    · intro h
      have h8 : (request.price_max : ℚ) < ((8000 : ℤ) : ℚ) := by exact_mod_cast h
      push_cast at h8
      linarith
  have h2 : ((request.price_max : ℚ) / 20000 > 4/5) ↔ request.price_max > 16000 := by
    rw [gt_iff_lt, lt_div_iff₀ h20]
    constructor
    · intro h
      have h16 : ((16000 : ℤ) : ℚ) < (request.price_max : ℚ) := by push_cast; linarith
      exact_mod_cast h16
    · intro h
      have h16 : ((16000 : ℤ) : ℚ) < (request.price_max : ℚ) := by exact_mod_cast h
      push_cast at h16
      linarith
  unfold determine_ranking_criteria amended_ranking_criteria
  simp only [h1, h2, gt_iff_lt]

/-- C4: for every hotel price and positive budget, the price score equals the
claim's piecewise reference definition in terms of r = price/budget. -/
theorem C4_price_score (price_total max_budget : ℤ) (hb : 0 < max_budget) :
    calculate_price_score price_total max_budget = claim_price_score price_total max_budget := by
  unfold calculate_price_score claim_price_score
  rfl

/-- Witness for C4 at price 6000 against budget 10000 (the r = 0.6 peak). -/
theorem C4_price_score_witness :
    (0 : ℤ) < 10000 ∧ calculate_price_score 6000 10000 = claim_price_score 6000 10000 :=
  ⟨by decide, C4_price_score 6000 10000 (by decide)⟩

/-- C10: with an empty highlights list the amenities score is the fixed 0.2
whatever the preferred amenities are, while the general count/preference/
high-value formula would give 0 there. -/
theorem C10_empty_highlights (preferred_amenities : List String) :
    calculate_amenities_score [] preferred_amenities = 1/5 ∧
    amenities_formula [] preferred_amenities = 0 := by
  constructor
  · rfl
  · unfold amenities_formula high_value_score high_value_raw prefMatches
    simp only [List.length_nil, Nat.cast_zero, zero_div, List.countP_nil, List.foldl_nil,
      min_eq_left (show (0:ℚ) ≤ 3/5 by norm_num), min_eq_left (show (0:ℚ) ≤ 2/5 by norm_num)]
    split_ifs <;> norm_num

/-- C2 counterexample: with no stations supplied the code returns the neutral
0.5, not the 1.0 the claim derives from treating the missing minimum as 0. -/
theorem C2_counterexample :
    calculate_distance_score expHalf havLat hotelA [] = 1/2 ∧
    claim_distance_score expHalf havLat hotelA [] = 1 ∧
    calculate_distance_score expHalf havLat hotelA [] ≠
      claim_distance_score expHalf havLat hotelA [] := by
  have h1 : calculate_distance_score expHalf havLat hotelA [] = 1/2 := rfl
  have h2 : claim_distance_score expHalf havLat hotelA [] = 1 := by
    simp only [claim_distance_score]
    norm_num
  refine ⟨h1, h2, ?_⟩
  rw [h1, h2]
  norm_num

/-- C2 amended: the distance score is 0.5 when no stations are supplied; with
stations it is 1.0 at non-positive minimum distance, 0.1 from 2000 m, and
`exp(-d/600) * 0.9 + 0.1` in between. -/
theorem C2_distance_score_amended (expq : ℚ → ℚ) (hav : ℚ → ℚ → ℚ → ℚ → ℚ)
    (hotel : HotelInfo) (stations : List StationInfo) :
    calculate_distance_score expq hav hotel stations =
      amended_distance_score expq hav hotel stations := by
  cases stations with
  | nil => rfl
  | cons s rest =>
    simp only [calculate_distance_score, amended_distance_score, minStationDistance,
      foldl_min_map]

/-- C3 counterexample: two stations 100 m apart by the distance oracle; the
claim's 150 m rule drops the second but the code keeps both, because the
source compares the meter distance times 1000 against 50. -/
theorem C3_counterexample :
    deduplicate_stations havLat [stA, stB] = [stA, stB] ∧
    claim_deduplicate_stations havLat [stA, stB] = [stA] ∧
    deduplicate_stations havLat [stA, stB] ≠ claim_deduplicate_stations havLat [stA, stB] := by
  have hd : havLat stB.latitude stB.longitude stA.latitude stA.longitude = 100 := by
    simp only [havLat, stA, stB, sub_zero]
    rw [abs_of_pos (by norm_num : (0:ℚ) < 1/1000)]
    norm_num
  have hcode : ¬ (havLat stB.latitude stB.longitude stA.latitude stA.longitude * 1000 < 50) := by
    rw [hd]; norm_num
  have hclaim : havLat stB.latitude stB.longitude stA.latitude stA.longitude < 150 := by
    rw [hd]; norm_num
  have hanyCode : ([stA].any (fun e =>
      decide (havLat stB.latitude stB.longitude e.latitude e.longitude * 1000 < 50))) = false := by
    simp only [List.any_cons, List.any_nil, Bool.or_false]
    exact decide_eq_false hcode
  have hanyClaim : ([stA].any (fun e =>
      decide (havLat stB.latitude stB.longitude e.latitude e.longitude < 150))) = true := by
    simp only [List.any_cons, List.any_nil, Bool.or_false]
    exact decide_eq_true hclaim
  have hpb : placeIdSeen stB.place_id [] = false := rfl
  have hqb : claimIdSeen stB.place_id [] = false := rfl
  have h1 : deduplicate_stations havLat [stA, stB] = [stA, stB] := by
    show dedupGo havLat [stA, stB] [] [] = [stA, stB]
    rw [show dedupGo havLat [stA, stB] [] [] = dedupGo havLat [stB] [] [stA] from rfl]
    simp only [dedupGo, hpb, hanyCode, Bool.false_eq_true, if_false, List.singleton_append]
  have h2 : claim_deduplicate_stations havLat [stA, stB] = [stA] := by
    show claimDedupGo havLat [stA, stB] [] [] = [stA]
    rw [show claimDedupGo havLat [stA, stB] [] [] = claimDedupGo havLat [stB] [] [stA] from rfl]
    simp only [claimDedupGo, hqb, hanyClaim, Bool.false_eq_true, if_false, if_true]
  refine ⟨h1, h2, ?_⟩
  rw [h1, h2]
  simp

/-- Bridge between the source comparison and the amended wording. -/
theorem dedup_threshold_iff (d : ℚ) : d * 1000 < 50 ↔ d < 1/20 := by
  constructor <;> intro h <;> linarith

/-- The source and amended dedup loops agree from any intermediate state. -/
theorem dedupGo_eq_amended (hav : ℚ → ℚ → ℚ → ℚ → ℚ) :
    ∀ (l : List StationInfo) (seen : List String) (kept : List StationInfo),
      dedupGo hav l seen kept = amendedDedupGo hav l seen kept := by
  intro l
  induction l with
  | nil => intro seen kept; rfl
  | cons station rest ih =>
    intro seen kept
    have hfun : ∀ e : StationInfo,
        decide (hav station.latitude station.longitude e.latitude e.longitude * 1000 < 50)
          = decide (hav station.latitude station.longitude e.latitude e.longitude < 1/20) :=
      fun e => decide_eq_decide.mpr (dedup_threshold_iff _)
    simp only [dedupGo, amendedDedupGo, hfun, ih]

/-- C3 amended: deduplication keeps first occurrences in input order, drops a
later station with a nonempty external identifier already kept, and drops by
proximity only below 0.05 m (the source's meter distance times 1000 compared
against 50). -/
theorem C3_dedup_amended (hav : ℚ → ℚ → ℚ → ℚ → ℚ) (stations : List StationInfo) :
    deduplicate_stations hav stations = amended_deduplicate_stations hav stations :=
  dedupGo_eq_amended hav stations [] []

/-- Inner keyword loop of the high-value bonus: adds 0.05 per matching
keyword of one highlight. -/
theorem hv_inner_foldl (a : String) :
    ∀ (kws : List String) (b : ℚ),
      kws.foldl (fun b kw => if isSubstr kw.toList (pyLower a).toList then b + 1/20 else b) b
        = b + (kws.countP (fun kw => isSubstr kw.toList (pyLower a).toList) : ℚ) * (1/20) := by
  intro kws
  induction kws with
  | nil => intro b; simp
  | cons k t ih =>
    intro b
    simp only [List.foldl_cons, List.countP_cons, ih]
    by_cases h : isSubstr k.toList (pyLower a).toList
    · simp only [h, if_true]
      push_cast
      ring
    · simp only [h, if_false]
      push_cast
      ring

/-- Outer highlight loop of the high-value bonus in closed form. -/
theorem hv_outer_foldl :
    ∀ (l : List String) (acc : ℚ),
      l.foldl (fun acc a => high_value_amenities.foldl
          (fun b kw => if isSubstr kw.toList (pyLower a).toList then b + 1/20 else b) acc) acc
        = acc + (pair_count l : ℚ) * (1/20) := by
  intro l
  induction l with
  | nil => intro acc; simp [pair_count]
  | cons a t ih =>
    intro acc
    rw [List.foldl_cons, ih, hv_inner_foldl]
    simp only [pair_count, List.map_cons, List.sum_cons]
    push_cast
    ring

/-- C7 counterexample: the highlight wifi parking matches two keywords; the
code adds 0.05 per (highlight, keyword) pair while the claim adds 0.05 per
highlight, so the bonuses differ (0.10 against 0.05). -/
theorem C7_counterexample :
    high_value_score ["wifi parking"] = 1/10 ∧
    claim_high_value_score ["wifi parking"] = 1/20 ∧
    calculate_amenities_score ["wifi parking"] [] = 1/5 ∧
    high_value_score ["wifi parking"] ≠ claim_high_value_score ["wifi parking"] := by
  have hraw : high_value_raw ["wifi parking"] = 0 + 1/20 + 1/20 := rfl
  have h1 : high_value_score ["wifi parking"] = 1/10 := by
    unfold high_value_score
    rw [hraw, min_eq_left (by norm_num : (0:ℚ) + 1/20 + 1/20 ≤ 2/5)]
    norm_num
  have hcnt : (["wifi parking"].countP (fun a =>
      high_value_amenities.any (fun kw => isSubstr kw.toList (pyLower a).toList))) = 1 := rfl
  have h2 : claim_high_value_score ["wifi parking"] = 1/20 := by
    unfold claim_high_value_score
    rw [hcnt, min_eq_left (by push_cast; norm_num : ((1:ℕ):ℚ) * (1/20) ≤ 2/5)]
    push_cast
    norm_num
  have h3 : calculate_amenities_score ["wifi parking"] [] = 1/5 := by
    show amenities_formula ["wifi parking"] [] = 1/5
    unfold amenities_formula
    rw [h1]
    norm_num [min_eq_left]
  refine ⟨h1, h2, h3, ?_⟩
  rw [h1, h2]
  norm_num

/-- C7 amended: the high-value bonus is 0.05 per (highlight, keyword)
containment pair, a highlight matching several keywords contributing once
per keyword, capped at 0.4. -/
theorem C7_high_value_amended (highlights : List String) :
    high_value_score highlights = min ((pair_count highlights : ℚ) * (1/20)) (2/5) := by
  unfold high_value_score high_value_raw
  rw [hv_outer_foldl]
  rw [zero_add]

/-- C9: the engine's walking time is the plain truncation of the
nearest-station distance over 80 with no one-minute floor, so a hotel less
than 80 m from its nearest station gets zero minutes and a 徒歩0分 distance
text, while the geo utility rounds to nearest with a floor of one minute. -/
theorem C9_walking_time_truncation (hav : ℚ → ℚ → ℚ → ℚ → ℚ) (hotel : HotelInfo)
    (s : StationInfo) (rest : List StationInfo) :
    (find_nearest_station hav hotel (s :: rest)).2
        = pyTrunc (minStationDistance hav hotel s rest / 80) ∧
    (∀ st : StationInfo, 0 ≤ stationDistance hav hotel st →
      stationDistance hav hotel st < 80 →
      (find_nearest_station hav hotel [st]).2 = 0 ∧
      format_distance_text (find_nearest_station hav hotel [st]).1
          (find_nearest_station hav hotel [st]).2
        = st.name ++ walkPre ++ "0" ++ walkSuf ∧
      calculate_walking_time_minutes (stationDistance hav hotel st) = .ok 1) ∧
    (∀ d : ℚ, 0 ≤ d →
      ∃ m : ℤ, calculate_walking_time_minutes d = .ok m ∧ 1 ≤ m) := by
  refine ⟨?_, ?_, ?_⟩
  · have hstep : find_nearest_station hav hotel (s :: rest)
        = ((nearestFold hav hotel s rest).1.name,
           pyTrunc ((nearestFold hav hotel s rest).2 / 80)) := rfl
    rw [hstep,
      show (nearestFold hav hotel s rest).2 = minStationDistance hav hotel s rest from
        nearestFold_snd hav hotel rest s (stationDistance hav hotel s)]
  · intro st hd0 hd80
    have hfn : find_nearest_station hav hotel [st]
        = (st.name, pyTrunc (stationDistance hav hotel st / 80)) := rfl
    have hz : pyTrunc (stationDistance hav hotel st / 80) = 0 :=
      pyTrunc_eq_zero _ (div_nonneg hd0 (by norm_num))
        ((div_lt_one (by norm_num)).mpr hd80)
    refine ⟨?_, ?_, ?_⟩
    · rw [hfn]
      exact hz
    · rw [hfn]
      show format_distance_text st.name (pyTrunc (stationDistance hav hotel st / 80)) = _
      rw [hz]
      rfl
    · unfold calculate_walking_time_minutes
      rw [if_neg (not_lt.mpr hd0),
        max_eq_left (pyRound_le_one _ (div_nonneg hd0 (by norm_num))
          ((div_lt_one (by norm_num)).mpr hd80))]
  · intro d hd
    refine ⟨max 1 (pyRound (d / 80)), ?_, le_max_left _ _⟩
    unfold calculate_walking_time_minutes
    rw [if_neg (not_lt.mpr hd)]

/-- Witness for C9: a station 79 m away gives zero engine walking minutes and
a 徒歩0分 text, while the geo utility reports one minute. -/
theorem C9_walking_time_truncation_witness :
    (find_nearest_station hav79 hotelA [stA]).2 = 0 ∧
    format_distance_text (find_nearest_station hav79 hotelA [stA]).1
        (find_nearest_station hav79 hotelA [stA]).2
      = stA.name ++ walkPre ++ "0" ++ walkSuf ∧
    calculate_walking_time_minutes (stationDistance hav79 hotelA stA) = .ok 1 :=
  (C9_walking_time_truncation hav79 hotelA stA []).2.1 stA
    (by norm_num [stationDistance, hav79]) (by norm_num [stationDistance, hav79])

/-- C5: a successful orchestrator response never carries more than three
results, whatever the collaborators return. -/
theorem C5_at_most_three
    (lookup : String → Except String (List StationInfo))
    (search : List StationInfo → ℤ → ℤ → ℤ → ℤ → Except String (List HotelInfo))
    (expq : ℚ → ℚ) (hav : ℚ → ℚ → ℚ → ℚ → ℚ)
    (request : SuggestionRequest) (base_date : ℤ) :
    ok_results_length (get_hotel_recommendations lookup search expq hav request base_date)
      ≤ 3 := by
  unfold get_hotel_recommendations
  cases hres : resolve_date_from_input request.date request.weekday base_date with
  | error e => simp [ok_results_length]
  | ok resolved =>
    simp only []
    by_cases hemp : (all_stations_of lookup request.stations).isEmpty
    · simp [hemp, ok_results_length]
    · simp only [hemp, Bool.false_eq_true, if_false]
      cases hs : search (deduplicate_stations hav (all_stations_of lookup request.stations))
          request.price_max resolved 800 50 with
      | error e => simp [ok_results_length]
      | ok hotels =>
        simp only [ok_results_length, List.length_map, List.length_take]
        omega

/-- Concatenated lookup successes vanish when every lookup fails or returns
an empty station list. -/
theorem all_stations_of_nil_of_failures
    (lookup : String → Except String (List StationInfo)) :
    ∀ (names : List String),
      (∀ n ∈ names, (∃ e, lookup n = .error e) ∨ lookup n = .ok []) →
      all_stations_of lookup names = [] := by
  intro names
  induction names with
  | nil => intro _; rfl
  | cons n t ih =>
    intro h
    have hn := h n (List.mem_cons_self n t)
    have ht := ih (fun m hm => h m (List.mem_cons_of_mem n hm))
    unfold all_stations_of at ht ⊢
    simp only [List.map_cons, List.flatten_cons, ht, List.append_nil]
    rcases hn with ⟨e, he⟩ | he <;> rw [he]

/-- C1: station-not-found is request-fatal, failing with the aggregated
per-name reasons, while hotel-not-found is not: the orchestrator answers
with a successful response whose results are empty and whose resolved date
is the resolved check-in date. -/
theorem C1_notfound_asymmetry
    (lookup : String → Except String (List StationInfo))
    (search : List StationInfo → ℤ → ℤ → ℤ → ℤ → Except String (List HotelInfo))
    (expq : ℚ → ℚ) (hav : ℚ → ℚ → ℚ → ℚ → ℚ)
    (request : SuggestionRequest) (base_date resolved : ℤ)
    (hres : resolve_date_from_input request.date request.weekday base_date = .ok resolved) :
    ((∀ n ∈ request.stations, (∃ e, lookup n = .error e) ∨ lookup n = .ok []) →
      get_hotel_recommendations lookup search expq hav request base_date =
        .error (.stationNotFound
          (no_stations_message (station_errors_of lookup request.stations)))) ∧
    (∀ e, all_stations_of lookup request.stations ≠ [] →
      search (deduplicate_stations hav (all_stations_of lookup request.stations))
          request.price_max resolved 800 50 = .error e →
      get_hotel_recommendations lookup search expq hav request base_date =
        .ok { resolved_date := resolved, results := [] }) := by
  constructor
  · intro hall
    have h0 := all_stations_of_nil_of_failures lookup request.stations hall
    simp only [get_hotel_recommendations, hres, h0, List.isEmpty_nil, if_true]
  · intro e hne hs
    have hemp : (all_stations_of lookup request.stations).isEmpty = false := by
      cases h : all_stations_of lookup request.stations with
      | nil => exact absurd h hne
      | cons a t => rfl
    simp only [get_hotel_recommendations, hres, hemp, Bool.false_eq_true, if_false, hs]

/-- Witness for C1: both branches on concrete collaborators — a failing
lookup aborts with the aggregated station error, and a failing hotel search
yields a successful empty response carrying the resolved date 100. -/
theorem C1_notfound_asymmetry_witness :
    (get_hotel_recommendations lookupFail searchEmptyOk expHalf havLat reqTokyo 0 =
      .error (.stationNotFound
        (no_stations_message (station_errors_of lookupFail reqTokyo.stations)))) ∧
    (get_hotel_recommendations lookupStA searchNoHotels expHalf havLat reqTokyo 0 =
      .ok { resolved_date := 100, results := [] }) := by
  constructor
  · exact (C1_notfound_asymmetry lookupFail searchEmptyOk expHalf havLat reqTokyo 0 100
      rfl).1 (by
        intro n hn
        exact Or.inl ⟨notFoundMsg, rfl⟩)
  · exact (C1_notfound_asymmetry lookupStA searchNoHotels expHalf havLat reqTokyo 0 100
      rfl).2 noHotelsMsg (by
        intro hcon
        exact List.noConfusion (show ([stA] : List StationInfo) = [] from hcon)) rfl

end HotelRec



